import Mathlib

/-!
# ec.ts, `src/http.c`: the UDP socket binding

A shallow embedding of the lifecycle part of `src/http.c`: the handle record
`TJSUdp`, the collector hooks `tjs_udp_finalizer` and `tjs_udp_mark`, the
constructor path `ects_http_constructor` / `tjs_new_udp`, and the synchronous
methods `tjs_udp_connect` and `tjs_udp_bind`.

The C code works on a heap of `TJSUdp` blocks and on script objects that carry
a pointer to such a block.  Both are explicit in `World`.  Every call that
leaves the file (engine, allocator, event loop, helpers of `utils.h`) is
appended to `World.trace` in program order; results that are decided outside
the file (allocation outcome, return codes, conversions) are read from `Env`.
Dereferencing a block that is not live, or freeing it twice, has no defined
behaviour in C: the embedding returns `none` there.
-/

namespace EcTs

/-- Address of a heap block holding a `TJSUdp`. -/
abbrev Ptr := Nat

/-- Identity of a script object. -/
abbrev ObjId := Nat

/-- A `JSContext *`. -/
abbrev Ctx := Nat

/-- A script value, as far as `http.c` tells values apart. -/
inductive JSValue where
  | undefined
  | exception
  | int (n : Int)
  | object (o : ObjId)
  | other (tag : Nat)
  deriving DecidableEq, Repr

/-- The constant `JS_UNDEFINED`. -/
def JS_UNDEFINED : JSValue := JSValue.undefined

/-- The constant `JS_EXCEPTION`. -/
def JS_EXCEPTION : JSValue := JSValue.exception

/-- The test `JS_IsUndefined(v)`. -/
def JS_IsUndefined (v : JSValue) : Bool :=
  match v with
  | JSValue.undefined => true
  | _ => false

/-- The test `JS_IsException(v)`. -/
def JS_IsException (v : JSValue) : Bool :=
  match v with
  | JSValue.exception => true
  | _ => false

/-- Error taxonomy of section 7 of the specification. -/
inductive ErrorKind where
  | InitError
  | AddressError
  | BindError
  | ConnectError
  | SendError
  | ReceiveError
  | OperationInProgress
  | ClosedError
  | NotBoundError
  | NotConnectedError
  deriving DecidableEq, Repr

/-- Outcome stored in a settled completion slot. -/
inductive Settlement where
  | resolved
  | rejected (e : ErrorKind)
  deriving DecidableEq, Repr

/-- Modelled from the spec: the type `TJSPromise` is declared in `utils.h`,
which is not part of `src/`.  Section 9 describes the completion slot as the
tagged variant {Empty, Pending, Settled}; section 3 says a settled slot is
either resolved or rejected. -/
inductive TJSPromise where
  | Empty
  | Pending
  | Settled (s : Settlement)
  deriving DecidableEq, Repr

/-- Modelled from the spec: `TJS_ClearPromise` is defined in `utils.c`, which
is not part of `src/`.  Section 9 ("clear/settle/clear") has clearing put the
slot in the `Empty` state. -/
def TJS_ClearPromise (_p : TJSPromise) : TJSPromise := TJSPromise.Empty

/-- Modelled from the spec: `TJS_FreePromiseRT` is defined in `utils.c`, which
is not part of `src/`; only its call in `tjs_udp_finalizer` is.  Section 4.2
says finalization "abandons any still-pending ReceiveOp completion", and
section 3 says a slot abandoned by teardown is settled with a
cancellation-class (closed-handle) error, while settling a settled slot is a
no-op.  An empty slot has nothing to settle. -/
def TJS_FreePromiseRT (p : TJSPromise) : TJSPromise :=
  match p with
  | TJSPromise.Pending => TJSPromise.Settled (Settlement.rejected ErrorKind.ClosedError)
  | TJSPromise.Empty => TJSPromise.Empty
  | TJSPromise.Settled s => TJSPromise.Settled s

/-- A translated socket address (`struct sockaddr_storage`). -/
structure sockaddr_storage where
  family : Int
  bytes : List Nat
  deriving DecidableEq, Repr

/-- The part of `uv_udp_t` that `http.c` writes: the `data` back-reference. -/
structure uv_udp_t where
  data : Option Ptr
  deriving DecidableEq, Repr

/-- The anonymous struct `read.b` of `TJSUdp`. -/
structure ReadBuf where
  tarray : JSValue
  data : Option Nat
  len : Nat
  deriving DecidableEq, Repr

/-- The anonymous struct `read` of `TJSUdp`. -/
structure ReadState where
  b : ReadBuf
  result : TJSPromise
  deriving DecidableEq, Repr

/-- The handle record `TJSUdp` (lines 31-44). -/
structure TJSUdp where
  ctx : Option Ctx
  closed : Int
  finalized : Int
  udp : uv_udp_t
  read : ReadState
  deriving DecidableEq, Repr

/-- Contents of a block returned by `calloc(1, sizeof(TJSUdp))`: all bytes
zero.  The two engine-typed fields are overwritten before they are read. -/
def zeroed : TJSUdp :=
  { ctx := none, closed := 0, finalized := 0, udp := { data := none },
    read := { b := { tarray := JSValue.int 0, data := none, len := 0 },
              result := TJSPromise.Empty } }

/-- One call that leaves `http.c`, with its arguments and, where the caller
looks at it, its result. -/
inductive Effect where
  | JS_NewObjectClass (r : Option ObjId)
  | calloc (r : Option Ptr)
  | uv_udp_init_ex (u : Ptr) (af : Int) (r : Int)
  | JS_FreeValue (v : JSValue)
  | free (u : Ptr)
  | JS_ThrowInternalError (msg : String)
  | TJS_ClearPromise (u : Ptr)
  | JS_SetOpaque (o : ObjId) (u : Ptr)
  | TJS_FreePromiseRT (u : Ptr) (p : TJSPromise)
  | JS_FreeValueRT (v : JSValue)
  | maybe_close (u : Ptr)
  | TJS_MarkPromise (u : Ptr) (p : TJSPromise)
  | JS_MarkValue (v : JSValue)
  | JS_ToInt32 (v : JSValue) (r : Option Int)
  | tjs_obj2addr (v : JSValue) (r : Int)
  | uv_udp_bind (u : Ptr) (ss : sockaddr_storage) (flags : Int) (r : Int)
  | uv_udp_connect (u : Ptr) (ss : sockaddr_storage) (r : Int)
  | tjs_throw_errno (r : Int)
  deriving DecidableEq, Repr

/-- A script object of the engine: its class, its reference count and the
pointer installed by `JS_SetOpaque` (NULL until then). -/
structure JSObject where
  class_id : Nat
  ref_count : Nat
  udata : Option Ptr
  deriving DecidableEq, Repr

/-- A heap block: its contents and whether it is still allocated.  The
contents of a released block are kept so that the state at the moment of
release can be inspected; the code cannot read them any more. -/
structure Block where
  mem : TJSUdp
  live : Bool
  deriving DecidableEq, Repr

/-- Everything `http.c` can observe or change. -/
structure World where
  objects : ObjId → Option JSObject
  heap : Ptr → Option Block
  trace : List Effect

/-- What the surroundings decide: the class id registered at module
initialisation, the platform constant `AF_UNSPEC`, and the outcome of each
external call. -/
structure Env where
  ects_http_class_id : Nat
  AF_UNSPEC : Int
  JS_NewObjectClass : Option ObjId
  calloc : Option Ptr
  uv_udp_init_ex : Ptr → Int → Int
  JS_ToInt32 : JSValue → Option Int
  tjs_obj2addr : JSValue → Int × sockaddr_storage
  uv_udp_bind : Ptr → sockaddr_storage → Int → Int
  uv_udp_connect : Ptr → sockaddr_storage → Int

/-- Append one external call to the trace. -/
def emit (w : World) (e : Effect) : World :=
  { w with trace := w.trace ++ [e] }

/-- Read a live block; `none` for a pointer that is not a live block. -/
def deref (w : World) (u : Ptr) : Option TJSUdp :=
  match w.heap u with
  | some b => if b.live then some b.mem else none
  | none => none

/-- Overwrite the contents of a block (the caller has dereferenced it). -/
def store (w : World) (u : Ptr) (h : TJSUdp) : World :=
  { w with heap := fun p => if p = u then some { mem := h, live := true } else w.heap p }

/-- The allocator call `free(u)`: releases a live block; releasing anything
else is undefined. -/
def free (w : World) (u : Ptr) : Option World :=
  match deref w u with
  | some h =>
    some (emit { w with heap := fun p => if p = u then some { mem := h, live := false } else w.heap p }
      (Effect.free u))
  | none => none

/-- The engine call `JS_GetOpaque(val, class_id)`: the pointer attached to an
object of that class, NULL for anything else. -/
def JS_GetOpaque (w : World) (val : JSValue) (class_id : Nat) : Option Ptr :=
  match val with
  | JSValue.object o =>
    match w.objects o with
    | some obj => if obj.class_id = class_id then obj.udata else none
    | none => none
  | _ => none

/-- The engine call `JS_GetOpaque2(ctx, obj, class_id)`: as `JS_GetOpaque`,
and a NULL result comes with a pending exception. -/
def JS_GetOpaque2 (w : World) (_ctx : Ctx) (obj : JSValue) (class_id : Nat) : Option Ptr :=
  JS_GetOpaque w obj class_id

/-- Argument `argv[i]`; the engine pads missing arguments with undefined up to
the declared arity. -/
def arg (argv : List JSValue) (i : Nat) : JSValue :=
  argv.getD i JSValue.undefined

/-- The finalization callback (lines 54-65).  The release of the buffer
container (line 58) is recorded as a call: the container is a typed array of
the engine, not an object of the class registered here, so releasing it runs
none of the code of this file. -/
def tjs_udp_finalizer (env : Env) (w : World) (val : JSValue) : Option World :=
  match JS_GetOpaque w val env.ects_http_class_id with
  | none => some w
  | some u =>
    match deref w u with
    | none => none
    | some h =>
      let w1 := emit w (Effect.TJS_FreePromiseRT u h.read.result)
      let h1 := { h with read := { h.read with result := TJS_FreePromiseRT h.read.result } }
      let w2 := emit (store w1 u h1) (Effect.JS_FreeValueRT h1.read.b.tarray)
      let h2 := { h1 with finalized := 1 }
      let w3 := store w2 u h2
      if h2.closed ≠ 0 then
        free w3 u
      else
        some (emit w3 (Effect.maybe_close u))

/-- The reachability-tracing callback (lines 67-73). -/
def tjs_udp_mark (env : Env) (w : World) (val : JSValue) : Option World :=
  match JS_GetOpaque w val env.ects_http_class_id with
  | none => some w
  | some u =>
    match deref w u with
    | none => none
    | some h =>
      let w1 := emit w (Effect.TJS_MarkPromise u h.read.result)
      some (emit w1 (Effect.JS_MarkValue h.read.b.tarray))

/-- The helper `tjs_udp_get` (lines 81-83). -/
def tjs_udp_get (env : Env) (w : World) (ctx : Ctx) (obj : JSValue) : Option Ptr :=
  JS_GetOpaque2 w ctx obj env.ects_http_class_id

/-- The engine call `JS_FreeValue(ctx, v)`: drops one reference of an object;
when the last one goes, the class finalizer runs (for objects of the class
registered by this file that is `tjs_udp_finalizer`, line 77) and the object
is released. -/
def JS_FreeValue (env : Env) (w : World) (v : JSValue) : Option World :=
  let w1 := emit w (Effect.JS_FreeValue v)
  match v with
  | JSValue.object o =>
    match w1.objects o with
    | none => some w1
    | some obj =>
      if obj.ref_count ≤ 1 then
        let finalized :=
          if obj.class_id = env.ects_http_class_id then tjs_udp_finalizer env w1 v else some w1
        match finalized with
        | none => none
        | some w2 => some { w2 with objects := fun x => if x = o then none else w2.objects x }
      else
        some { w1 with objects := fun x =>
          if x = o then some { obj with ref_count := obj.ref_count - 1 } else w1.objects x }
  | _ => some w1

/-- The engine call `JS_NewObjectClass(ctx, class_id)`: a new object of the
class with one reference and no attached pointer, or an exception. -/
def JS_NewObjectClass (env : Env) (w : World) : World × JSValue :=
  match env.JS_NewObjectClass with
  | none => (emit w (Effect.JS_NewObjectClass none), JS_EXCEPTION)
  | some o =>
    (emit { w with objects := fun x =>
        if x = o then some { class_id := env.ects_http_class_id, ref_count := 1, udata := none }
        else w.objects x }
      (Effect.JS_NewObjectClass (some o)), JSValue.object o)

/-- The engine call `JS_SetOpaque(obj, u)`. -/
def JS_SetOpaque (w : World) (obj : JSValue) (u : Ptr) : World :=
  match obj with
  | JSValue.object o =>
    match w.objects o with
    | some ob =>
      emit { w with objects := fun x => if x = o then some { ob with udata := some u } else w.objects x }
        (Effect.JS_SetOpaque o u)
    | none => w
  | _ => w

/-- The message of line 104. -/
def initErrorMessage : String := "couldn't initialize UDP handle"

/-- The function `tjs_new_udp` (lines 85-121). -/
def tjs_new_udp (env : Env) (w : World) (ctx : Ctx) (af : Int) : Option (World × JSValue) :=
  let (w1, obj) := JS_NewObjectClass env w
  if JS_IsException obj then
    some (w1, obj)
  else
    match env.calloc with
    | none =>
      match JS_FreeValue env (emit w1 (Effect.calloc none)) obj with
      | none => none
      | some w2 => some (w2, JS_EXCEPTION)
    | some u =>
      let w2 := emit (store w1 u zeroed) (Effect.calloc (some u))
      let r := env.uv_udp_init_ex u af
      let w3 := emit w2 (Effect.uv_udp_init_ex u af r)
      if r ≠ 0 then
        match JS_FreeValue env w3 obj with
        | none => none
        | some w4 =>
          match free w4 u with
          | none => none
          | some w5 => some (emit w5 (Effect.JS_ThrowInternalError initErrorMessage), JS_EXCEPTION)
      else
        match deref w3 u with
        | none => none
        | some h =>
          let h1 := { h with ctx := some ctx }
          let h2 := { h1 with closed := 0 }
          let h3 := { h2 with finalized := 0 }
          let h4 := { h3 with udp := { h3.udp with data := some u } }
          let h5 := { h4 with read := { h4.read with b := { h4.read.b with tarray := JS_UNDEFINED } } }
          let h6 := { h5 with read := { h5.read with b := { h5.read.b with data := none } } }
          let h7 := { h6 with read := { h6.read with b := { h6.read.b with len := 0 } } }
          let h8 := { h7 with read := { h7.read with result := TJS_ClearPromise h7.read.result } }
          let w4 := emit (store w3 u h8) (Effect.TJS_ClearPromise u)
          some (JS_SetOpaque w4 obj u, obj)

/-- The constructor `ects_http_constructor` (lines 123-128). -/
def ects_http_constructor (env : Env) (w : World) (ctx : Ctx) (_new_target : JSValue)
    (argv : List JSValue) : Option (World × JSValue) :=
  if JS_IsUndefined (arg argv 0) then
    tjs_new_udp env w ctx env.AF_UNSPEC
  else
    let r := env.JS_ToInt32 (arg argv 0)
    let w1 := emit w (Effect.JS_ToInt32 (arg argv 0) r)
    match r with
    | none => some (w1, JS_EXCEPTION)
    | some af => tjs_new_udp env w1 ctx af

/-- The helper call `tjs_throw_errno(ctx, r)`: raises the error for a native
return code and yields the exception value. -/
def tjs_throw_errno (w : World) (r : Int) : World × JSValue :=
  (emit w (Effect.tjs_throw_errno r), JS_EXCEPTION)

/-- The method `tjs_udp_connect` (lines 130-146). -/
def tjs_udp_connect (env : Env) (w : World) (ctx : Ctx) (this_val : JSValue)
    (argv : List JSValue) : World × JSValue :=
  match tjs_udp_get env w ctx this_val with
  | none => (w, JS_EXCEPTION)
  | some u =>
    let a := env.tjs_obj2addr (arg argv 0)
    let w1 := emit w (Effect.tjs_obj2addr (arg argv 0) a.1)
    if a.1 ≠ 0 then
      (w1, JS_EXCEPTION)
    else
      let r := env.uv_udp_connect u a.2
      let w2 := emit w1 (Effect.uv_udp_connect u a.2 r)
      if r ≠ 0 then
        tjs_throw_errno w2 r
      else
        (w2, JS_UNDEFINED)

/-- The method `tjs_udp_bind` (lines 148-168). -/
def tjs_udp_bind (env : Env) (w : World) (ctx : Ctx) (this_val : JSValue)
    (argv : List JSValue) : World × JSValue :=
  match tjs_udp_get env w ctx this_val with
  | none => (w, JS_EXCEPTION)
  | some u =>
    let a := env.tjs_obj2addr (arg argv 0)
    let w1 := emit w (Effect.tjs_obj2addr (arg argv 0) a.1)
    if a.1 ≠ 0 then
      (w1, JS_EXCEPTION)
    else
      let conv : World × Option Int :=
        if JS_IsUndefined (arg argv 1) then
          (w1, some 0)
        else
          (emit w1 (Effect.JS_ToInt32 (arg argv 1) (env.JS_ToInt32 (arg argv 1))),
            env.JS_ToInt32 (arg argv 1))
      match conv.2 with
      | none => (conv.1, JS_EXCEPTION)
      | some flags =>
        let r := env.uv_udp_bind u a.2 flags
        let w3 := emit conv.1 (Effect.uv_udp_bind u a.2 flags r)
        if r ≠ 0 then
          tjs_throw_errno w3 r
        else
          (w3, JS_UNDEFINED)

/-- Modelled from the spec: the close-confirmation callback that the event
loop invokes (Signal A of section 4.2) is not part of `src/`.  It "sets
state = Closed" and, by the rule of section 4.2, "whichever signal observes
the other's flag already set performs the free; the one that arrives first
only sets its own flag and returns". -/
def native_close_confirmed (w : World) (u : Ptr) : Option World :=
  match deref w u with
  | none => none
  | some h =>
    let h1 := { h with closed := 1 }
    let w1 := store w u h1
    if h1.finalized ≠ 0 then
      free w1 u
    else
      some w1

/-- The two release signals of section 4.2. -/
inductive Signal where
  | A
  | B
  deriving DecidableEq, Repr

/-- One release signal delivered for the handle `u` owned by the object `o`:
Signal A runs the close confirmation, Signal B runs `tjs_udp_finalizer` on
the object. -/
def step (env : Env) (o : ObjId) (u : Ptr) (w : World) (s : Signal) : Option World :=
  match s with
  | Signal.A => native_close_confirmed w u
  | Signal.B => tjs_udp_finalizer env w (JSValue.object o)

/-- Deliver a sequence of release signals, in order. -/
def run (env : Env) (o : ObjId) (u : Ptr) (w : World) (ss : List Signal) : Option World :=
  match ss with
  | [] => some w
  | s :: rest =>
    match step env o u w s with
    | none => none
    | some w1 => run env o u w1 rest

/-- Number of `free(u)` calls recorded in a trace. -/
def freeCount (t : List Effect) (u : Ptr) : Nat :=
  t.count (Effect.free u)

/-- Whether a trace entry is a call into the event loop. -/
def isNative (e : Effect) : Bool :=
  match e with
  | Effect.uv_udp_init_ex _ _ _ => true
  | Effect.uv_udp_bind _ _ _ _ => true
  | Effect.uv_udp_connect _ _ _ => true
  | Effect.maybe_close _ => true
  | _ => false

/-- The handle contents that `tjs_udp_finalizer` leaves behind. -/
def finalizedMem (h : TJSUdp) : TJSUdp :=
  { h with read := { h.read with result := TJS_FreePromiseRT h.read.result }, finalized := 1 }

/-- The last external call of `tjs_udp_finalizer`. -/
def finalizerLast (h : TJSUdp) (u : Ptr) : Effect :=
  if h.closed ≠ 0 then Effect.free u else Effect.maybe_close u

/-- The world that `tjs_udp_finalizer` leaves behind when the object carries
the live handle `u` with contents `h`. -/
def finalizerResult (w : World) (u : Ptr) (h : TJSUdp) : World :=
  { objects := w.objects,
    heap := fun p => if p = u then some { mem := finalizedMem h, live := decide (h.closed = 0) }
            else w.heap p,
    trace := w.trace ++ [Effect.TJS_FreePromiseRT u h.read.result,
              Effect.JS_FreeValueRT h.read.b.tarray, finalizerLast h u] }

/-- The world that the close confirmation leaves behind for the live handle
`u` with contents `h`. -/
def closeResult (w : World) (u : Ptr) (h : TJSUdp) : World :=
  { objects := w.objects,
    heap := fun p => if p = u then some { mem := { h with closed := 1 },
                                          live := decide (h.finalized = 0) }
            else w.heap p,
    trace := if h.finalized ≠ 0 then w.trace ++ [Effect.free u] else w.trace }

/-- Contents of a handle at address 100 with a receive buffer of 1500 bytes,
with the given flags and completion slot. -/
def sampleMem (closed finalized : Int) (slot : TJSPromise) : TJSUdp :=
  { ctx := some 0, closed := closed, finalized := finalized, udp := { data := some 100 },
    read := { b := { tarray := JSValue.other 3, data := some 4096, len := 1500 },
              result := slot } }

/-- A world with one object (7) of the registered class that carries the live
handle 100, whose flags and completion slot are given. -/
def sampleWorld (closed finalized : Int) (slot : TJSPromise) : World :=
  { objects := fun x =>
      if x = 7 then some { class_id := 1, ref_count := 1, udata := some 100 } else none,
    heap := fun p =>
      if p = 100 then some { mem := sampleMem closed finalized slot, live := true } else none,
    trace := [] }

/-- An empty world. -/
def emptyWorld : World :=
  { objects := fun _ => none, heap := fun _ => none, trace := [] }

/-- Surroundings in which every external call succeeds; integers convert to
themselves, values tagged `other` translate to an IPv4 address. -/
def sampleEnv : Env :=
  { ects_http_class_id := 1,
    AF_UNSPEC := 0,
    JS_NewObjectClass := some 7,
    calloc := some 100,
    uv_udp_init_ex := fun _ _ => 0,
    JS_ToInt32 := fun v => match v with
      | JSValue.int n => some n
      | JSValue.undefined => some 0
      | _ => none,
    tjs_obj2addr := fun v => match v with
      | JSValue.other t => (0, { family := 2, bytes := [t] })
      | _ => (-1, { family := 0, bytes := [] }),
    uv_udp_bind := fun _ _ _ => 0,
    uv_udp_connect := fun _ _ => 0 }

/-- The world in which `tjs_new_udp` releases the script object after the
native initialisation of block `u` returned `r`. -/
def worldAtInitFailure (env : Env) (w : World) (u : Ptr) (af r : Int) : World :=
  emit (emit (store (JS_NewObjectClass env w).1 u zeroed) (Effect.calloc (some u)))
    (Effect.uv_udp_init_ex u af r)

/-- The world in which `tjs_new_udp` releases the script object after the
allocation of the handle failed. -/
def worldAtAllocFailure (env : Env) (w : World) : World :=
  emit (JS_NewObjectClass env w).1 (Effect.calloc none)

/-- The world `tjs_new_udp` returns when the native initialisation fails. -/
def initFailureResult (env : Env) (w : World) (af : Int) (o : ObjId) (u : Ptr) : World :=
  { objects := fun x => if x = o then none else w.objects x,
    heap := fun p => if p = u then some { mem := zeroed, live := false } else w.heap p,
    trace := w.trace ++ [Effect.JS_NewObjectClass (some o), Effect.calloc (some u),
      Effect.uv_udp_init_ex u af (env.uv_udp_init_ex u af),
      Effect.JS_FreeValue (JSValue.object o), Effect.free u,
      Effect.JS_ThrowInternalError "couldn't initialize UDP handle"] }

/-- The world `tjs_new_udp` returns when the allocation of the handle fails. -/
def allocFailureResult (w : World) (o : ObjId) : World :=
  { objects := fun x => if x = o then none else w.objects x,
    heap := w.heap,
    trace := w.trace ++ [Effect.JS_NewObjectClass (some o), Effect.calloc none,
      Effect.JS_FreeValue (JSValue.object o)] }

/-- The handle contents after a successful `tjs_new_udp`. -/
def freshMem (ctx : Ctx) (u : Ptr) : TJSUdp :=
  { ctx := some ctx, closed := 0, finalized := 0, udp := { data := some u },
    read := { b := { tarray := JS_UNDEFINED, data := none, len := 0 },
              result := TJSPromise.Empty } }

/-- The world `tjs_new_udp` returns on success. -/
def successResult (env : Env) (w : World) (ctx : Ctx) (af : Int) (o : ObjId) (u : Ptr) : World :=
  { objects := fun x =>
      if x = o then some { class_id := env.ects_http_class_id, ref_count := 1, udata := some u }
      else w.objects x,
    heap := fun p => if p = u then some { mem := freshMem ctx u, live := true } else w.heap p,
    trace := w.trace ++ [Effect.JS_NewObjectClass (some o), Effect.calloc (some u),
      Effect.uv_udp_init_ex u af 0, Effect.TJS_ClearPromise u, Effect.JS_SetOpaque o u] }

/-- Surroundings in which the native initialisation fails. -/
def envInitFails : Env :=
  { sampleEnv with uv_udp_init_ex := fun _ _ => -12 }

/-- Surroundings in which the allocation of the handle fails. -/
def envAllocFails : Env :=
  { sampleEnv with calloc := none }

/-- Surroundings in which the native bind and connect fail. -/
def envNativeFails : Env :=
  { sampleEnv with uv_udp_bind := fun _ _ _ => -98, uv_udp_connect := fun _ _ => -22 }

/-- The lifecycle flags of every block of `w` are still set in `w1`. -/
def flagsForward (w w1 : World) : Prop :=
  ∀ p b, w.heap p = some b →
    ∃ b1, w1.heap p = some b1 ∧
      (b.mem.closed = 1 → b1.mem.closed = 1) ∧ (b.mem.finalized = 1 → b1.mem.finalized = 1) ∧
      (b.mem.closed ≠ 0 → b1.mem.closed ≠ 0) ∧ (b.mem.finalized ≠ 0 → b1.mem.finalized ≠ 0)

/-- Closed form of `tjs_udp_finalizer` on an object that carries a live handle. -/
theorem tjs_udp_finalizer_attached (env : Env) (w : World) (val : JSValue) (u : Ptr) (h : TJSUdp)
    (hu : JS_GetOpaque w val env.ects_http_class_id = some u) (hh : deref w u = some h) :
    tjs_udp_finalizer env w val = some (finalizerResult w u h) := by
  unfold tjs_udp_finalizer finalizerResult
  simp only [hu, hh]
  by_cases hc : h.closed = 0
  · simp [hc, emit, store, finalizedMem, finalizerLast]
    funext p
    by_cases hp : p = u <;> simp [hp]
  · simp [hc, emit, store, finalizedMem, finalizerLast, free, deref]
    funext p
    by_cases hp : p = u <;> simp [hp]

/-- Closed form of the close confirmation on a live handle. -/
theorem native_close_confirmed_live (w : World) (u : Ptr) (h : TJSUdp)
    (hh : deref w u = some h) :
    native_close_confirmed w u = some (closeResult w u h) := by
  unfold native_close_confirmed closeResult
  simp only [hh]
  by_cases hf : h.finalized = 0
  · simp [hf, store]
  · simp [hf, store, free, deref, emit]
    funext p
    by_cases hp : p = u <;> simp [hp]

/-- An object of the registered class carries the pointer stored in it. -/
theorem JS_GetOpaque_object (env : Env) (w : World) (o : ObjId) (obj : JSObject)
    (ho : w.objects o = some obj) (hc : obj.class_id = env.ects_http_class_id) :
    JS_GetOpaque w (JSValue.object o) env.ects_http_class_id = obj.udata := by
  simp [JS_GetOpaque, ho, hc]

/-- Appending the three calls of a freeing finalizer adds one `free(u)`. -/
theorem freeCount_finalizer_free (t : List Effect) (u : Ptr) (p : TJSPromise) (v : JSValue) :
    freeCount (t ++ [Effect.TJS_FreePromiseRT u p, Effect.JS_FreeValueRT v, Effect.free u]) u
      = freeCount t u + 1 := by
  simp [freeCount, List.count_append, List.count_cons]

/-- Appending the three calls of a finalizer that requests close adds no `free(u)`. -/
theorem freeCount_finalizer_close (t : List Effect) (u : Ptr) (p : TJSPromise) (v : JSValue) :
    freeCount (t ++ [Effect.TJS_FreePromiseRT u p, Effect.JS_FreeValueRT v, Effect.maybe_close u]) u
      = freeCount t u := by
  simp [freeCount, List.count_append, List.count_cons]

/-- Appending one `free(u)` adds one. -/
theorem freeCount_free (t : List Effect) (u : Ptr) :
    freeCount (t ++ [Effect.free u]) u = freeCount t u + 1 := by
  simp [freeCount, List.count_append, List.count_cons]

/-- Closed form of `tjs_new_udp` when the native initialisation fails. -/
theorem tjs_new_udp_init_failure (env : Env) (w : World) (ctx : Ctx) (af : Int) (o : ObjId)
    (u : Ptr) (hnew : env.JS_NewObjectClass = some o) (hcal : env.calloc = some u)
    (hr : env.uv_udp_init_ex u af ≠ 0) :
    tjs_new_udp env w ctx af = some (initFailureResult env w af o u, JS_EXCEPTION) := by
  simp [tjs_new_udp, JS_NewObjectClass, hnew, hcal, hr, JS_IsException, JS_FreeValue, emit,
    store, tjs_udp_finalizer, JS_GetOpaque, free, deref, initErrorMessage, initFailureResult]
  constructor
  · funext x
    by_cases hx : x = o <;> simp [hx]
  · funext p
    by_cases hp : p = u <;> simp [hp]

/-- Closed form of `tjs_new_udp` when the allocation of the handle fails. -/
theorem tjs_new_udp_alloc_failure (env : Env) (w : World) (ctx : Ctx) (af : Int) (o : ObjId)
    (hnew : env.JS_NewObjectClass = some o) (hcal : env.calloc = none) :
    tjs_new_udp env w ctx af = some (allocFailureResult w o, JS_EXCEPTION) := by
  simp [tjs_new_udp, JS_NewObjectClass, hnew, hcal, JS_IsException, JS_FreeValue, emit,
    tjs_udp_finalizer, JS_GetOpaque, allocFailureResult]
  funext x
  by_cases hx : x = o <;> simp [hx]

/-- Closed form of `tjs_new_udp` on success. -/
theorem tjs_new_udp_success (env : Env) (w : World) (ctx : Ctx) (af : Int) (o : ObjId)
    (u : Ptr) (hnew : env.JS_NewObjectClass = some o) (hcal : env.calloc = some u)
    (hr : env.uv_udp_init_ex u af = 0) :
    tjs_new_udp env w ctx af = some (successResult env w ctx af o u, JSValue.object o) := by
  simp [tjs_new_udp, JS_NewObjectClass, hnew, hcal, hr, JS_IsException, emit, store, deref,
    JS_SetOpaque, TJS_ClearPromise, zeroed, successResult, freshMem]
  constructor
  · funext x
    by_cases hx : x = o <;> simp [hx]
  · funext p
    by_cases hp : p = u <;> simp [hp]

/-- Without an attached handle the finalizer changes nothing. -/
theorem tjs_udp_finalizer_detached (env : Env) (w : World) (val : JSValue)
    (hu : JS_GetOpaque w val env.ects_http_class_id = none) :
    tjs_udp_finalizer env w val = some w := by
  simp [tjs_udp_finalizer, hu]

/-- Closed form of `tjs_udp_bind` once the address has been translated and the
flags are known: the native bind is the next call. -/
theorem tjs_udp_bind_native (env : Env) (w : World) (ctx : Ctx) (this_val : JSValue)
    (argv : List JSValue) (u : Ptr) (flags : Int)
    (hu : tjs_udp_get env w ctx this_val = some u)
    (ha : (env.tjs_obj2addr (arg argv 0)).1 = 0)
    (hf : (arg argv 1 = JSValue.undefined ∧ flags = 0) ∨
      (arg argv 1 ≠ JSValue.undefined ∧ env.JS_ToInt32 (arg argv 1) = some flags)) :
    tjs_udp_bind env w ctx this_val argv =
      ({ w with trace := w.trace ++ [Effect.tjs_obj2addr (arg argv 0) 0] ++
          (if arg argv 1 = JSValue.undefined then []
            else [Effect.JS_ToInt32 (arg argv 1) (some flags)]) ++
          [Effect.uv_udp_bind u (env.tjs_obj2addr (arg argv 0)).2 flags
            (env.uv_udp_bind u (env.tjs_obj2addr (arg argv 0)).2 flags)] ++
          (if env.uv_udp_bind u (env.tjs_obj2addr (arg argv 0)).2 flags ≠ 0
            then [Effect.tjs_throw_errno (env.uv_udp_bind u (env.tjs_obj2addr (arg argv 0)).2 flags)]
            else []) },
       if env.uv_udp_bind u (env.tjs_obj2addr (arg argv 0)).2 flags ≠ 0 then JS_EXCEPTION
       else JS_UNDEFINED) := by
  rcases hf with ⟨h1, h0⟩ | ⟨h1, hc⟩
  · subst h0
    by_cases hr : env.uv_udp_bind u (env.tjs_obj2addr (arg argv 0)).2 0 = 0
    · simp [tjs_udp_bind, hu, ha, h1, JS_IsUndefined, emit, hr]
    · simp [tjs_udp_bind, hu, ha, h1, JS_IsUndefined, emit, hr, tjs_throw_errno]
  · have hud : JS_IsUndefined (arg argv 1) = false := by
      cases hv : arg argv 1 <;> simp_all [JS_IsUndefined]
    by_cases hr : env.uv_udp_bind u (env.tjs_obj2addr (arg argv 0)).2 flags = 0
    · simp [tjs_udp_bind, hu, ha, h1, hud, hc, emit, hr]
    · simp [tjs_udp_bind, hu, ha, h1, hud, hc, emit, hr, tjs_throw_errno]

/-- Closed form of `tjs_udp_connect` once the address has been translated: the
native connect is the next call. -/
theorem tjs_udp_connect_native (env : Env) (w : World) (ctx : Ctx) (this_val : JSValue)
    (argv : List JSValue) (u : Ptr)
    (hu : tjs_udp_get env w ctx this_val = some u)
    (ha : (env.tjs_obj2addr (arg argv 0)).1 = 0) :
    tjs_udp_connect env w ctx this_val argv =
      ({ w with trace := w.trace ++ [Effect.tjs_obj2addr (arg argv 0) 0] ++
          [Effect.uv_udp_connect u (env.tjs_obj2addr (arg argv 0)).2
            (env.uv_udp_connect u (env.tjs_obj2addr (arg argv 0)).2)] ++
          (if env.uv_udp_connect u (env.tjs_obj2addr (arg argv 0)).2 ≠ 0
            then [Effect.tjs_throw_errno (env.uv_udp_connect u (env.tjs_obj2addr (arg argv 0)).2)]
            else []) },
       if env.uv_udp_connect u (env.tjs_obj2addr (arg argv 0)).2 ≠ 0 then JS_EXCEPTION
       else JS_UNDEFINED) := by
  by_cases hr : env.uv_udp_connect u (env.tjs_obj2addr (arg argv 0)).2 = 0
  · simp [tjs_udp_connect, hu, ha, emit, hr]
  · simp [tjs_udp_connect, hu, ha, emit, hr, tjs_throw_errno]

/-- A world with the same heap keeps every flag. -/
theorem flagsForward_of_heap_eq (w w1 : World) (hh : w1.heap = w.heap) : flagsForward w w1 := by
  intro p b hb
  exact ⟨b, by rw [hh, hb], id, id, id, id⟩

/-- The methods `tjs_udp_bind` and `tjs_udp_connect` leave the heap alone. -/
theorem bind_connect_heap (env : Env) (w : World) (ctx : Ctx) (this_val : JSValue)
    (argv : List JSValue) :
    (tjs_udp_bind env w ctx this_val argv).1.heap = w.heap ∧
    (tjs_udp_connect env w ctx this_val argv).1.heap = w.heap := by
  constructor
  · unfold tjs_udp_bind
    cases tjs_udp_get env w ctx this_val with
    | none => rfl
    | some u =>
      by_cases ha : (env.tjs_obj2addr (arg argv 0)).1 = 0
      · by_cases h1 : JS_IsUndefined (arg argv 1) = true
        · by_cases hr : env.uv_udp_bind u (env.tjs_obj2addr (arg argv 0)).2 0 = 0
          · simp [ha, h1, hr, emit]
          · simp [ha, h1, hr, emit, tjs_throw_errno]
        · cases hc : env.JS_ToInt32 (arg argv 1) with
          | none => simp [ha, h1, hc, emit]
          | some flags =>
            by_cases hr : env.uv_udp_bind u (env.tjs_obj2addr (arg argv 0)).2 flags = 0
            · simp [ha, h1, hc, hr, emit]
            · simp [ha, h1, hc, hr, emit, tjs_throw_errno]
      · simp [ha, emit]
  · unfold tjs_udp_connect
    cases tjs_udp_get env w ctx this_val with
    | none => rfl
    | some u =>
      by_cases ha : (env.tjs_obj2addr (arg argv 0)).1 = 0
      · by_cases hr : env.uv_udp_connect u (env.tjs_obj2addr (arg argv 0)).2 = 0
        · simp [ha, hr, emit]
        · simp [ha, hr, emit, tjs_throw_errno]
      · simp [ha, emit]

/-- A block that can be dereferenced is the block stored in the heap. -/
theorem deref_heap (w : World) (u : Ptr) (h : TJSUdp) (b : Block)
    (hh : deref w u = some h) (hb : w.heap u = some b) : b.mem = h := by
  unfold deref at hh
  rw [hb] at hh
  by_cases hl : b.live = true
  · simpa [hl] using hh
  · simp [hl] at hh

/-- C2: for every handle attached to the finalized object, tjs_udp_finalizer
sets finalized = 1; when closed was already set it frees the handle and does
not request close, and when closed was not set it leaves the handle allocated
and requests close (maybe_close) instead. -/
theorem finalizer_frees_iff_closed (env : Env) (w : World) (val : JSValue) (u : Ptr) (h : TJSUdp)
    (hu : JS_GetOpaque w val env.ects_http_class_id = some u) (hh : deref w u = some h) :
    ∃ w1 b, tjs_udp_finalizer env w val = some w1 ∧ w1.heap u = some b ∧
      b.mem.finalized = 1 ∧ b.mem.closed = h.closed ∧
      (h.closed ≠ 0 → b.live = false ∧
        w1.trace = w.trace ++ [Effect.TJS_FreePromiseRT u h.read.result,
          Effect.JS_FreeValueRT h.read.b.tarray, Effect.free u]) ∧
      (h.closed = 0 → b.live = true ∧
        w1.trace = w.trace ++ [Effect.TJS_FreePromiseRT u h.read.result,
          Effect.JS_FreeValueRT h.read.b.tarray, Effect.maybe_close u]) := by
  refine ⟨finalizerResult w u h, { mem := finalizedMem h, live := decide (h.closed = 0) },
    tjs_udp_finalizer_attached env w val u h hu hh, ?_, ?_, ?_, ?_, ?_⟩
  · simp [finalizerResult]
  · simp [finalizedMem]
  · simp [finalizedMem]
  · intro hc
    simp [hc, finalizerLast, finalizerResult]
  · intro hc
    simp [hc, finalizerLast, finalizerResult]

/-- Witness for C2: a handle that is already closed (freed by the finalizer). -/
theorem finalizer_frees_iff_closed_witness :
    ∃ w1 b, tjs_udp_finalizer sampleEnv (sampleWorld 1 0 TJSPromise.Empty) (JSValue.object 7) = some w1 ∧
      w1.heap 100 = some b ∧ b.mem.finalized = 1 ∧ b.live = false :=
  match finalizer_frees_iff_closed sampleEnv (sampleWorld 1 0 TJSPromise.Empty) (JSValue.object 7) 100
      (sampleMem 1 0 TJSPromise.Empty)
      (by decide) (by decide) with
  | ⟨w1, b, h1, h2, h3, _, h5, _⟩ => ⟨w1, b, h1, h2, h3, (h5 (by decide)).1⟩

/-- C1: starting from a freshly constructed handle (closed = 0, finalized = 0)
attached to its object, for both orders of Signal A (native close confirmed)
and Signal B (tjs_udp_finalizer) the handle is still allocated and not freed
after the first signal, and after the second one it has been freed exactly
once, in a state with closed = 1 and finalized = 1. -/
theorem freed_once_at_second_signal (env : Env) (w : World) (o : ObjId) (u : Ptr)
    (obj : JSObject) (h : TJSUdp)
    (ho : w.objects o = some obj) (hc : obj.class_id = env.ects_http_class_id)
    (hp : obj.udata = some u) (hh : deref w u = some h)
    (hcl : h.closed = 0) (hfi : h.finalized = 0) :
    (∃ w1 w2 b1 b2,
      run env o u w [Signal.A] = some w1 ∧ run env o u w [Signal.A, Signal.B] = some w2 ∧
      w1.heap u = some b1 ∧ b1.live = true ∧ freeCount w1.trace u = freeCount w.trace u ∧
      w2.heap u = some b2 ∧ b2.live = false ∧ b2.mem.closed = 1 ∧ b2.mem.finalized = 1 ∧
      freeCount w2.trace u = freeCount w.trace u + 1) ∧
    (∃ w1 w2 b1 b2,
      run env o u w [Signal.B] = some w1 ∧ run env o u w [Signal.B, Signal.A] = some w2 ∧
      w1.heap u = some b1 ∧ b1.live = true ∧ freeCount w1.trace u = freeCount w.trace u ∧
      w2.heap u = some b2 ∧ b2.live = false ∧ b2.mem.closed = 1 ∧ b2.mem.finalized = 1 ∧
      freeCount w2.trace u = freeCount w.trace u + 1) := by
  have hget : JS_GetOpaque w (JSValue.object o) env.ects_http_class_id = some u := by
    rw [JS_GetOpaque_object env w o obj ho hc, hp]
  constructor
  · -- Signal A, then Signal B
    have hA := native_close_confirmed_live w u h hh
    have hget1 : JS_GetOpaque (closeResult w u h) (JSValue.object o) env.ects_http_class_id
        = some u := by
      simpa [JS_GetOpaque, closeResult] using hget
    have hd1 : deref (closeResult w u h) u = some { h with closed := 1 } := by
      simp [deref, closeResult, hfi]
    have hB := tjs_udp_finalizer_attached env _ (JSValue.object o) u _ hget1 hd1
    refine ⟨closeResult w u h, finalizerResult (closeResult w u h) u { h with closed := 1 },
      ⟨{ h with closed := 1 }, true⟩,
      ⟨finalizedMem { h with closed := 1 }, false⟩, ?_, ?_, ?_, rfl, ?_, ?_, rfl, ?_, ?_, ?_⟩
    · simp [run, step, hA]
    · simp only [run, step, hA, hB]
    · simp [closeResult, hfi]
    · simp [closeResult, hfi]
    · simp [finalizerResult]
    · simp [finalizedMem]
    · simp [finalizedMem]
    · simpa [finalizerResult, finalizerLast, closeResult, hfi] using
        freeCount_finalizer_free w.trace u h.read.result h.read.b.tarray
  · -- Signal B, then Signal A
    have hB := tjs_udp_finalizer_attached env w (JSValue.object o) u h hget hh
    have hd1 : deref (finalizerResult w u h) u = some (finalizedMem h) := by
      simp [deref, finalizerResult, hcl]
    have hA := native_close_confirmed_live (finalizerResult w u h) u (finalizedMem h) hd1
    refine ⟨finalizerResult w u h, closeResult (finalizerResult w u h) u (finalizedMem h),
      ⟨finalizedMem h, true⟩,
      ⟨{ finalizedMem h with closed := 1 }, false⟩, ?_, ?_, ?_, rfl, ?_, ?_, rfl, rfl, ?_, ?_⟩
    · simp only [run, step, hB]
    · simp only [run, step, hB, hA]
    · simp [finalizerResult, hcl]
    · simpa [finalizerResult, finalizerLast, hcl] using
        freeCount_finalizer_close w.trace u h.read.result h.read.b.tarray
    · simp [closeResult, finalizedMem]
    · simp [finalizedMem]
    · simp only [closeResult, finalizerResult, finalizedMem, finalizerLast, hcl, ne_eq,
        not_true_eq_false, if_false, one_ne_zero, not_false_eq_true, if_true]
      rw [freeCount_free, freeCount_finalizer_close]

/-- Witness for C1: the handle that `tjs_new_udp` has just built in the empty
world (block 100, object 7) receives the two signals in either order. -/
theorem freed_once_at_second_signal_witness :
    tjs_new_udp sampleEnv emptyWorld 0 2
      = some (successResult sampleEnv emptyWorld 0 2 7 100, JSValue.object 7) ∧
    (∃ w2 b2, run sampleEnv 7 100 (successResult sampleEnv emptyWorld 0 2 7 100)
        [Signal.A, Signal.B] = some w2 ∧
      w2.heap 100 = some b2 ∧ b2.live = false ∧ freeCount w2.trace 100 = 1) ∧
    (∃ w2 b2, run sampleEnv 7 100 (successResult sampleEnv emptyWorld 0 2 7 100)
        [Signal.B, Signal.A] = some w2 ∧
      w2.heap 100 = some b2 ∧ b2.live = false ∧ freeCount w2.trace 100 = 1) :=
  match freed_once_at_second_signal sampleEnv (successResult sampleEnv emptyWorld 0 2 7 100) 7 100
      { class_id := 1, ref_count := 1, udata := some 100 } (freshMem 0 100)
      (by decide) (by decide) (by decide) (by decide) (by decide) (by decide) with
  | ⟨⟨_, w2, _, b2, _, h2, _, _, _, h6, h7, _, _, h10⟩, ⟨_, v2, _, c2, _, k2, _, _, _, k6, k7, _, _, k10⟩⟩ =>
    ⟨tjs_new_udp_success sampleEnv emptyWorld 0 2 7 100 rfl rfl rfl,
     ⟨w2, b2, h2, h6, h7, by simpa [successResult, emptyWorld, freeCount] using h10⟩,
     ⟨v2, c2, k2, k6, k7, by simpa [successResult, emptyWorld, freeCount] using k10⟩⟩

/-- C5: for every handle with an unsettled pending receive completion,
tjs_udp_finalizer settles that completion with the closed-handle error, and
does so before the handle memory is released: the call on the completion is
the first external call, free(u) (when closed was set) is the last, and when
closed was not set the handle stays allocated. -/
theorem finalizer_settles_pending_first (env : Env) (w : World) (val : JSValue) (u : Ptr)
    (h : TJSUdp)
    (hu : JS_GetOpaque w val env.ects_http_class_id = some u) (hh : deref w u = some h)
    (hpend : h.read.result = TJSPromise.Pending) :
    ∃ w1 b, tjs_udp_finalizer env w val = some w1 ∧ w1.heap u = some b ∧
      b.mem.read.result = TJSPromise.Settled (Settlement.rejected ErrorKind.ClosedError) ∧
      (h.closed ≠ 0 →
        w1.trace = w.trace ++ [Effect.TJS_FreePromiseRT u TJSPromise.Pending,
          Effect.JS_FreeValueRT h.read.b.tarray, Effect.free u]) ∧
      (h.closed = 0 → b.live = true ∧
        w1.trace = w.trace ++ [Effect.TJS_FreePromiseRT u TJSPromise.Pending,
          Effect.JS_FreeValueRT h.read.b.tarray, Effect.maybe_close u]) := by
  refine ⟨finalizerResult w u h, { mem := finalizedMem h, live := decide (h.closed = 0) },
    tjs_udp_finalizer_attached env w val u h hu hh, ?_, ?_, ?_, ?_⟩
  · simp [finalizerResult]
  · simp [finalizedMem, hpend, TJS_FreePromiseRT]
  · intro hc
    simp [hc, finalizerLast, finalizerResult, hpend]
  · intro hc
    simp [hc, finalizerLast, finalizerResult, hpend]

/-- Witness for C5: a closed handle with a pending receive. -/
theorem finalizer_settles_pending_first_witness :
    ∃ w1 b, tjs_udp_finalizer sampleEnv (sampleWorld 1 0 TJSPromise.Pending) (JSValue.object 7) = some w1 ∧
      w1.heap 100 = some b ∧
      b.mem.read.result = TJSPromise.Settled (Settlement.rejected ErrorKind.ClosedError) ∧
      w1.trace = [Effect.TJS_FreePromiseRT 100 TJSPromise.Pending,
        Effect.JS_FreeValueRT (JSValue.other 3), Effect.free 100] :=
  match finalizer_settles_pending_first sampleEnv (sampleWorld 1 0 TJSPromise.Pending)
      (JSValue.object 7) 100
      (sampleMem 1 0 TJSPromise.Pending)
      (by decide) (by decide) rfl with
  | ⟨w1, b, h1, h2, h3, h4, _⟩ => ⟨w1, b, h1, h2, h3, by simpa [sampleWorld] using h4 (by decide)⟩

/-- C3: when uv_udp_init_ex returns a non-zero code, tjs_new_udp returns an
exception after throwing "couldn't initialize UDP handle"; the script object
has been released, the handle block has been freed exactly once (by the
constructor), and the finalizer that runs for the discarded object finds no
attached handle and changes nothing.  When the allocation of the handle fails,
the script object is released and an exception is returned with no handle
attached and the heap untouched. -/
theorem constructor_failure_no_leak (env : Env) (w : World) (ctx : Ctx) (af : Int) (o : ObjId)
    (hnew : env.JS_NewObjectClass = some o) :
    (∀ u, env.calloc = some u → env.uv_udp_init_ex u af ≠ 0 →
      ∃ w1, tjs_new_udp env w ctx af = some (w1, JS_EXCEPTION) ∧
        w1.objects o = none ∧ (∀ x, x ≠ o → w1.objects x = w.objects x) ∧
        w1.heap u = some { mem := zeroed, live := false } ∧
        (∀ p, p ≠ u → w1.heap p = w.heap p) ∧
        w1.trace = w.trace ++ [Effect.JS_NewObjectClass (some o), Effect.calloc (some u),
          Effect.uv_udp_init_ex u af (env.uv_udp_init_ex u af),
          Effect.JS_FreeValue (JSValue.object o), Effect.free u,
          Effect.JS_ThrowInternalError "couldn't initialize UDP handle"] ∧
        JS_GetOpaque (worldAtInitFailure env w u af (env.uv_udp_init_ex u af)) (JSValue.object o)
          env.ects_http_class_id = none ∧
        tjs_udp_finalizer env (worldAtInitFailure env w u af (env.uv_udp_init_ex u af))
          (JSValue.object o) = some (worldAtInitFailure env w u af (env.uv_udp_init_ex u af))) ∧
    (env.calloc = none →
      ∃ w1, tjs_new_udp env w ctx af = some (w1, JS_EXCEPTION) ∧
        w1.objects o = none ∧ (∀ x, x ≠ o → w1.objects x = w.objects x) ∧
        w1.heap = w.heap ∧
        w1.trace = w.trace ++ [Effect.JS_NewObjectClass (some o), Effect.calloc none,
          Effect.JS_FreeValue (JSValue.object o)] ∧
        JS_GetOpaque (worldAtAllocFailure env w) (JSValue.object o) env.ects_http_class_id = none ∧
        tjs_udp_finalizer env (worldAtAllocFailure env w) (JSValue.object o)
          = some (worldAtAllocFailure env w)) := by
  constructor
  · intro u hcal hr
    have hg : JS_GetOpaque (worldAtInitFailure env w u af (env.uv_udp_init_ex u af))
        (JSValue.object o) env.ects_http_class_id = none := by
      simp [worldAtInitFailure, JS_NewObjectClass, hnew, emit, store, JS_GetOpaque]
    refine ⟨initFailureResult env w af o u, tjs_new_udp_init_failure env w ctx af o u hnew hcal hr,
      ?_, ?_, ?_, ?_, rfl, hg, tjs_udp_finalizer_detached env _ _ hg⟩
    · simp [initFailureResult]
    · intro x hx
      simp [initFailureResult, hx]
    · simp [initFailureResult]
    · intro p hp
      simp [initFailureResult, hp]
  · intro hcal
    have hg : JS_GetOpaque (worldAtAllocFailure env w) (JSValue.object o)
        env.ects_http_class_id = none := by
      simp [worldAtAllocFailure, JS_NewObjectClass, hnew, emit, JS_GetOpaque]
    refine ⟨allocFailureResult w o, tjs_new_udp_alloc_failure env w ctx af o hnew hcal,
      ?_, ?_, rfl, rfl, hg, tjs_udp_finalizer_detached env _ _ hg⟩
    · simp [allocFailureResult]
    · intro x hx
      simp [allocFailureResult, hx]

/-- Witness for C3: one run with a failing native initialisation, one with a
failing allocation. -/
theorem constructor_failure_no_leak_witness :
    (∃ w1, tjs_new_udp envInitFails emptyWorld 0 2 = some (w1, JS_EXCEPTION) ∧
      w1.objects 7 = none ∧ w1.heap 100 = some { mem := zeroed, live := false } ∧
      w1.trace = [Effect.JS_NewObjectClass (some 7), Effect.calloc (some 100),
        Effect.uv_udp_init_ex 100 2 (-12), Effect.JS_FreeValue (JSValue.object 7),
        Effect.free 100, Effect.JS_ThrowInternalError "couldn't initialize UDP handle"]) ∧
    (∃ w1, tjs_new_udp envAllocFails emptyWorld 0 2 = some (w1, JS_EXCEPTION) ∧
      w1.objects 7 = none ∧
      w1.trace = [Effect.JS_NewObjectClass (some 7), Effect.calloc none,
        Effect.JS_FreeValue (JSValue.object 7)]) :=
  ⟨match (constructor_failure_no_leak envInitFails emptyWorld 0 2 7 rfl).1 100 rfl (by decide) with
    | ⟨w1, h1, h2, _, h4, _, h6, _⟩ => ⟨w1, h1, h2, h4, h6⟩,
   match (constructor_failure_no_leak envAllocFails emptyWorld 0 2 7 rfl).2 rfl with
    | ⟨w1, h1, h2, _, _, h5, _⟩ => ⟨w1, h1, h2, h5⟩⟩

/-- C10: after tjs_new_udp succeeds the new handle has closed = 0 and
finalized = 0, an empty receive buffer (container undefined, data null,
length 0), a cleared (Empty) completion slot, a native socket whose
back-reference is the handle itself, and it is the handle attached to the
returned script object. -/
theorem constructor_success_initial_state (env : Env) (w : World) (ctx : Ctx) (af : Int)
    (o : ObjId) (u : Ptr)
    (hnew : env.JS_NewObjectClass = some o) (hcal : env.calloc = some u)
    (hr : env.uv_udp_init_ex u af = 0) :
    ∃ w1, tjs_new_udp env w ctx af = some (w1, JSValue.object o) ∧
      w1.heap u = some
        { mem := { ctx := some ctx, closed := 0, finalized := 0, udp := { data := some u },
                   read := { b := { tarray := JS_UNDEFINED, data := none, len := 0 },
                             result := TJSPromise.Empty } },
          live := true } ∧
      w1.objects o = some { class_id := env.ects_http_class_id, ref_count := 1, udata := some u } ∧
      JS_GetOpaque w1 (JSValue.object o) env.ects_http_class_id = some u ∧
      w1.trace = w.trace ++ [Effect.JS_NewObjectClass (some o), Effect.calloc (some u),
        Effect.uv_udp_init_ex u af 0, Effect.TJS_ClearPromise u, Effect.JS_SetOpaque o u] := by
  refine ⟨successResult env w ctx af o u, tjs_new_udp_success env w ctx af o u hnew hcal hr,
    ?_, ?_, ?_, rfl⟩
  · simp [successResult, freshMem]
  · simp [successResult]
  · simp [successResult, JS_GetOpaque]

/-- Witness for C10: construction in the empty world with IPv4. -/
theorem constructor_success_initial_state_witness :
    ∃ w1, tjs_new_udp sampleEnv emptyWorld 0 2 = some (w1, JSValue.object 7) ∧
      JS_GetOpaque w1 (JSValue.object 7) 1 = some 100 ∧
      w1.heap 100 = some
        { mem := { ctx := some 0, closed := 0, finalized := 0, udp := { data := some 100 },
                   read := { b := { tarray := JS_UNDEFINED, data := none, len := 0 },
                             result := TJSPromise.Empty } },
          live := true } :=
  match constructor_success_initial_state sampleEnv emptyWorld 0 2 7 100 rfl rfl rfl with
  | ⟨w1, h1, h2, _, h4, _⟩ => ⟨w1, h1, h4, h2⟩

/-- C8: the constructor opens the native socket with the family given by its
argument: AF_UNSPEC when the argument is undefined, the converted integer,
unchanged, when the argument converts; when the conversion fails it returns an
exception without allocating a handle or calling the event loop.  Whenever
tjs_new_udp gets as far as the native open, the family it passes is the one
it was called with, and it makes no other call into the event loop. -/
theorem constructor_address_family (env : Env) (w : World) (ctx : Ctx) (new_target : JSValue)
    (argv : List JSValue) :
    (arg argv 0 = JSValue.undefined →
      ects_http_constructor env w ctx new_target argv = tjs_new_udp env w ctx env.AF_UNSPEC) ∧
    (∀ n, arg argv 0 ≠ JSValue.undefined → env.JS_ToInt32 (arg argv 0) = some n →
      ects_http_constructor env w ctx new_target argv
        = tjs_new_udp env (emit w (Effect.JS_ToInt32 (arg argv 0) (some n))) ctx n) ∧
    (arg argv 0 ≠ JSValue.undefined → env.JS_ToInt32 (arg argv 0) = none →
      ∃ w1, ects_http_constructor env w ctx new_target argv = some (w1, JS_EXCEPTION) ∧
        w1.heap = w.heap ∧ w1.objects = w.objects ∧
        w1.trace = w.trace ++ [Effect.JS_ToInt32 (arg argv 0) none]) ∧
    (∀ (w0 : World) (af : Int) (o : ObjId) (u : Ptr),
      env.JS_NewObjectClass = some o → env.calloc = some u →
      ∃ w1 v rest, tjs_new_udp env w0 ctx af = some (w1, v) ∧
        w1.trace = w0.trace ++ [Effect.JS_NewObjectClass (some o), Effect.calloc (some u),
          Effect.uv_udp_init_ex u af (env.uv_udp_init_ex u af)] ++ rest ∧
        ∀ e ∈ rest, isNative e = false) := by
  refine ⟨?_, ?_, ?_, ?_⟩
  · intro h0
    simp [ects_http_constructor, h0, JS_IsUndefined]
  · intro n h0 hn
    have hu : JS_IsUndefined (arg argv 0) = false := by
      cases hv : arg argv 0 <;> simp_all [JS_IsUndefined]
    simp [ects_http_constructor, hu, hn]
  · intro h0 hn
    have hu : JS_IsUndefined (arg argv 0) = false := by
      cases hv : arg argv 0 <;> simp_all [JS_IsUndefined]
    exact ⟨emit w (Effect.JS_ToInt32 (arg argv 0) none),
      by simp [ects_http_constructor, hu, hn], rfl, rfl, rfl⟩
  · intro w0 af o u hnew hcal
    by_cases hr : env.uv_udp_init_ex u af = 0
    · refine ⟨successResult env w0 ctx af o u, JSValue.object o,
        [Effect.TJS_ClearPromise u, Effect.JS_SetOpaque o u],
        tjs_new_udp_success env w0 ctx af o u hnew hcal hr, ?_, ?_⟩
      · simp [successResult, hr]
      · intro e he
        simp at he
        rcases he with rfl | rfl <;> rfl
    · refine ⟨initFailureResult env w0 af o u, JS_EXCEPTION,
        [Effect.JS_FreeValue (JSValue.object o), Effect.free u,
          Effect.JS_ThrowInternalError "couldn't initialize UDP handle"],
        tjs_new_udp_init_failure env w0 ctx af o u hnew hcal hr, ?_, ?_⟩
      · simp [initFailureResult]
      · intro e he
        simp at he
        rcases he with rfl | rfl | rfl <;> rfl

/-- Witness for C8: no argument, the argument 10, and an argument that does
not convert. -/
theorem constructor_address_family_witness :
    ects_http_constructor sampleEnv emptyWorld 0 JSValue.undefined []
      = tjs_new_udp sampleEnv emptyWorld 0 0 ∧
    ects_http_constructor sampleEnv emptyWorld 0 JSValue.undefined [JSValue.int 10]
      = tjs_new_udp sampleEnv
          (emit emptyWorld (Effect.JS_ToInt32 (JSValue.int 10) (some 10))) 0 10 ∧
    (∃ w1, ects_http_constructor sampleEnv emptyWorld 0 JSValue.undefined [JSValue.other 1]
        = some (w1, JS_EXCEPTION) ∧
      w1.trace = [Effect.JS_ToInt32 (JSValue.other 1) none]) ∧
    (∃ w1 v rest, tjs_new_udp sampleEnv emptyWorld 0 10 = some (w1, v) ∧
      w1.trace = [Effect.JS_NewObjectClass (some 7), Effect.calloc (some 100),
        Effect.uv_udp_init_ex 100 10 0] ++ rest) :=
  ⟨(constructor_address_family sampleEnv emptyWorld 0 JSValue.undefined []).1 rfl,
   (constructor_address_family sampleEnv emptyWorld 0 JSValue.undefined [JSValue.int 10]).2.1 10
      (by decide) rfl,
   match (constructor_address_family sampleEnv emptyWorld 0 JSValue.undefined
      [JSValue.other 1]).2.2.1 (by decide) rfl with
    | ⟨w1, h1, _, _, h4⟩ => ⟨w1, h1, h4⟩,
   match (constructor_address_family sampleEnv emptyWorld 0 JSValue.undefined []).2.2.2
      emptyWorld 10 7 100 rfl rfl with
    | ⟨w1, v, rest, h1, h2, _⟩ => ⟨w1, v, rest, h1, h2⟩⟩

/-- C9: for an object carrying a handle, tjs_udp_mark reports to the collector
the pending receive completion (read.result) and then the container of the
pending receive buffer (read.b.tarray), and nothing else, and leaves the heap
and the objects as they were; for an object with no attached handle it
reports nothing. -/
theorem mark_reports_pending_receive (env : Env) (w : World) (val : JSValue) :
    (∀ u h, JS_GetOpaque w val env.ects_http_class_id = some u → deref w u = some h →
      ∃ w1, tjs_udp_mark env w val = some w1 ∧
        w1.trace = w.trace ++ [Effect.TJS_MarkPromise u h.read.result,
          Effect.JS_MarkValue h.read.b.tarray] ∧
        w1.heap = w.heap ∧ w1.objects = w.objects) ∧
    (JS_GetOpaque w val env.ects_http_class_id = none → tjs_udp_mark env w val = some w) := by
  constructor
  · intro u h hu hh
    exact ⟨emit (emit w (Effect.TJS_MarkPromise u h.read.result))
        (Effect.JS_MarkValue h.read.b.tarray),
      by simp only [tjs_udp_mark, hu, hh], by simp [emit], rfl, rfl⟩
  · intro hu
    simp [tjs_udp_mark, hu]

/-- Witness for C9: the handle of object 7 with a pending receive, and a value
that is no object. -/
theorem mark_reports_pending_receive_witness :
    (∃ w1, tjs_udp_mark sampleEnv (sampleWorld 0 0 TJSPromise.Pending) (JSValue.object 7) = some w1 ∧
      w1.trace = [Effect.TJS_MarkPromise 100 TJSPromise.Pending,
        Effect.JS_MarkValue (JSValue.other 3)]) ∧
    tjs_udp_mark sampleEnv emptyWorld (JSValue.int 5) = some emptyWorld :=
  ⟨match (mark_reports_pending_receive sampleEnv (sampleWorld 0 0 TJSPromise.Pending)
      (JSValue.object 7)).1 100
      (sampleMem 0 0 TJSPromise.Pending)
      (by decide) (by decide) with
    | ⟨w1, h1, h2, _⟩ => ⟨w1, h1, h2⟩,
   (mark_reports_pending_receive sampleEnv emptyWorld (JSValue.int 5)).2 (by decide)⟩

/-- C7: bind on an object without a handle fails without any external call;
with a handle, an address that does not translate fails the call before the
native bind, and so does a flags argument that is present and does not
convert; otherwise the native bind is called exactly once with the translated
address and the flags (0 when the argument is undefined), and the call
fails (tjs_throw_errno) exactly when the native bind returns a non-zero code,
returning undefined otherwise. -/
theorem bind_error_paths (env : Env) (w : World) (ctx : Ctx) (this_val : JSValue)
    (argv : List JSValue) :
    (tjs_udp_get env w ctx this_val = none →
      tjs_udp_bind env w ctx this_val argv = (w, JS_EXCEPTION)) ∧
    (∀ u, tjs_udp_get env w ctx this_val = some u → (env.tjs_obj2addr (arg argv 0)).1 ≠ 0 →
      tjs_udp_bind env w ctx this_val argv =
        ({ w with trace := w.trace ++
            [Effect.tjs_obj2addr (arg argv 0) (env.tjs_obj2addr (arg argv 0)).1] },
         JS_EXCEPTION)) ∧
    (∀ u, tjs_udp_get env w ctx this_val = some u → (env.tjs_obj2addr (arg argv 0)).1 = 0 →
      arg argv 1 ≠ JSValue.undefined → env.JS_ToInt32 (arg argv 1) = none →
      tjs_udp_bind env w ctx this_val argv =
        ({ w with trace := w.trace ++
            [Effect.tjs_obj2addr (arg argv 0) 0, Effect.JS_ToInt32 (arg argv 1) none] },
         JS_EXCEPTION)) ∧
    (∀ u flags, tjs_udp_get env w ctx this_val = some u →
      (env.tjs_obj2addr (arg argv 0)).1 = 0 →
      ((arg argv 1 = JSValue.undefined ∧ flags = 0) ∨
        (arg argv 1 ≠ JSValue.undefined ∧ env.JS_ToInt32 (arg argv 1) = some flags)) →
      ∃ w1 pre, tjs_udp_bind env w ctx this_val argv =
          (w1, if env.uv_udp_bind u (env.tjs_obj2addr (arg argv 0)).2 flags ≠ 0
                then JS_EXCEPTION else JS_UNDEFINED) ∧
        w1.heap = w.heap ∧ w1.objects = w.objects ∧
        (∀ e ∈ pre, isNative e = false) ∧
        w1.trace = w.trace ++ pre ++
          [Effect.uv_udp_bind u (env.tjs_obj2addr (arg argv 0)).2 flags
            (env.uv_udp_bind u (env.tjs_obj2addr (arg argv 0)).2 flags)] ++
          (if env.uv_udp_bind u (env.tjs_obj2addr (arg argv 0)).2 flags ≠ 0
            then [Effect.tjs_throw_errno (env.uv_udp_bind u (env.tjs_obj2addr (arg argv 0)).2 flags)]
            else []) ∧
        ((tjs_udp_bind env w ctx this_val argv).2 = JS_EXCEPTION ↔
          env.uv_udp_bind u (env.tjs_obj2addr (arg argv 0)).2 flags ≠ 0)) := by
  refine ⟨?_, ?_, ?_, ?_⟩
  · intro hu
    simp [tjs_udp_bind, hu]
  · intro u hu ha
    simp [tjs_udp_bind, hu, ha, emit]
  · intro u hu ha h1 hc
    have hud : JS_IsUndefined (arg argv 1) = false := by
      cases hv : arg argv 1 <;> simp_all [JS_IsUndefined]
    simp [tjs_udp_bind, hu, ha, hud, hc, emit]
  · intro u flags hu ha hf
    have hb := tjs_udp_bind_native env w ctx this_val argv u flags hu ha hf
    refine ⟨_, [Effect.tjs_obj2addr (arg argv 0) 0] ++
        (if arg argv 1 = JSValue.undefined then []
          else [Effect.JS_ToInt32 (arg argv 1) (some flags)]), hb, rfl, rfl, ?_, ?_, ?_⟩
    · intro e he
      by_cases h1 : arg argv 1 = JSValue.undefined
      · simp [h1] at he
        subst he
        rfl
      · simp [h1] at he
        rcases he with rfl | rfl <;> rfl
    · simp
    · rw [hb]
      by_cases hr : env.uv_udp_bind u (env.tjs_obj2addr (arg argv 0)).2 flags = 0
      · simp [hr, JS_EXCEPTION, JS_UNDEFINED]
      · simp [hr]

/-- Witness for C7: one call for each of the four outcomes, and a failing
native bind. -/
theorem bind_error_paths_witness :
    tjs_udp_bind sampleEnv emptyWorld 0 (JSValue.object 7) [JSValue.other 5]
      = (emptyWorld, JS_EXCEPTION) ∧
    (tjs_udp_bind sampleEnv (sampleWorld 0 0 TJSPromise.Empty) 0 (JSValue.object 7)
      [JSValue.int 1]).2 = JS_EXCEPTION ∧
    (tjs_udp_bind sampleEnv (sampleWorld 0 0 TJSPromise.Empty) 0 (JSValue.object 7)
      [JSValue.other 5, JSValue.other 6]).2 = JS_EXCEPTION ∧
    (∃ w1 pre, tjs_udp_bind sampleEnv (sampleWorld 0 0 TJSPromise.Empty) 0 (JSValue.object 7)
        [JSValue.other 5, JSValue.int 4] = (w1, JS_UNDEFINED) ∧
      w1.trace = [] ++ pre ++ [Effect.uv_udp_bind 100 { family := 2, bytes := [5] } 4 0] ++ []) ∧
    (∃ w1 pre, tjs_udp_bind envNativeFails (sampleWorld 0 0 TJSPromise.Empty) 0 (JSValue.object 7)
        [JSValue.other 5] = (w1, JS_EXCEPTION) ∧
      w1.trace = [] ++ pre ++ [Effect.uv_udp_bind 100 { family := 2, bytes := [5] } 0 (-98)] ++
        [Effect.tjs_throw_errno (-98)]) :=
  ⟨(bind_error_paths sampleEnv emptyWorld 0 (JSValue.object 7) [JSValue.other 5]).1 (by decide),
   congrArg Prod.snd
    ((bind_error_paths sampleEnv (sampleWorld 0 0 TJSPromise.Empty) 0 (JSValue.object 7)
      [JSValue.int 1]).2.1 100 (by decide) (by decide)),
   congrArg Prod.snd
    ((bind_error_paths sampleEnv (sampleWorld 0 0 TJSPromise.Empty) 0 (JSValue.object 7)
      [JSValue.other 5, JSValue.other 6]).2.2.1 100 (by decide) (by decide) (by decide) rfl),
   match (bind_error_paths sampleEnv (sampleWorld 0 0 TJSPromise.Empty) 0 (JSValue.object 7)
      [JSValue.other 5, JSValue.int 4]).2.2.2 100 4 (by decide) (by decide)
      (Or.inr ⟨by decide, rfl⟩) with
    | ⟨w1, pre, h1, _, _, _, h5, _⟩ => ⟨w1, pre, h1, h5⟩,
   match (bind_error_paths envNativeFails (sampleWorld 0 0 TJSPromise.Empty) 0 (JSValue.object 7)
      [JSValue.other 5]).2.2.2 100 0 (by decide) (by decide)
      (Or.inl ⟨by decide, rfl⟩) with
    | ⟨w1, pre, h1, _, _, _, h5, _⟩ => ⟨w1, pre, h1, h5⟩⟩

/-- C6: the lifecycle flags only move forward.  For every block of the heap,
tjs_udp_finalizer, tjs_udp_mark, tjs_udp_bind and tjs_udp_connect leave a set
closed flag set and a set finalized flag set (closed = 1 stays 1, finalized = 1
stays 1); the flags are 0 in the block that a successful tjs_new_udp has just
initialised. -/
theorem lifecycle_flags_forward (env : Env) (w : World) (ctx : Ctx) (val : JSValue)
    (argv : List JSValue)
    (hlive : ∀ u, JS_GetOpaque w val env.ects_http_class_id = some u → ∃ h, deref w u = some h) :
    (∃ w1, tjs_udp_finalizer env w val = some w1 ∧ flagsForward w w1) ∧
    (∃ w1, tjs_udp_mark env w val = some w1 ∧ flagsForward w w1) ∧
    flagsForward w (tjs_udp_bind env w ctx val argv).1 ∧
    flagsForward w (tjs_udp_connect env w ctx val argv).1 ∧
    (∀ af o u, env.JS_NewObjectClass = some o → env.calloc = some u →
      env.uv_udp_init_ex u af = 0 →
      ∃ w1 v b, tjs_new_udp env w ctx af = some (w1, v) ∧ w1.heap u = some b ∧
        b.mem.closed = 0 ∧ b.mem.finalized = 0) := by
  refine ⟨?_, ?_, ?_, ?_, ?_⟩
  · cases hu : JS_GetOpaque w val env.ects_http_class_id with
    | none =>
      exact ⟨w, tjs_udp_finalizer_detached env w val hu, flagsForward_of_heap_eq w w rfl⟩
    | some u =>
      obtain ⟨h, hh⟩ := hlive u hu
      refine ⟨finalizerResult w u h, tjs_udp_finalizer_attached env w val u h hu hh, ?_⟩
      intro p b hb
      by_cases hp : p = u
      · subst hp
        have hm := deref_heap w p h b hh hb
        refine ⟨{ mem := finalizedMem h, live := decide (h.closed = 0) }, ?_, ?_, ?_, ?_, ?_⟩
        · simp [finalizerResult]
        · intro hc
          simpa [finalizedMem, hm] using hc
        · intro _
          simp [finalizedMem]
        · intro hc
          simpa [finalizedMem, hm] using hc
        · intro _
          simp [finalizedMem]
      · exact ⟨b, by simp [finalizerResult, hp, hb], id, id, id, id⟩
  · cases hu : JS_GetOpaque w val env.ects_http_class_id with
    | none =>
      exact ⟨w, by simp [tjs_udp_mark, hu], flagsForward_of_heap_eq w w rfl⟩
    | some u =>
      obtain ⟨h, hh⟩ := hlive u hu
      exact ⟨emit (emit w (Effect.TJS_MarkPromise u h.read.result))
          (Effect.JS_MarkValue h.read.b.tarray),
        by simp only [tjs_udp_mark, hu, hh], flagsForward_of_heap_eq _ _ rfl⟩
  · exact flagsForward_of_heap_eq _ _ (bind_connect_heap env w ctx val argv).1
  · exact flagsForward_of_heap_eq _ _ (bind_connect_heap env w ctx val argv).2
  · intro af o u hnew hcal hr
    exact ⟨successResult env w ctx af o u, JSValue.object o,
      { mem := freshMem ctx u, live := true },
      tjs_new_udp_success env w ctx af o u hnew hcal hr, by simp [successResult], rfl, rfl⟩

/-- Witness for C6: the closed handle of object 7 goes through the finalizer
and keeps closed = 1 while finalized becomes 1. -/
theorem lifecycle_flags_forward_witness :
    ∃ w1, tjs_udp_finalizer sampleEnv (sampleWorld 1 0 TJSPromise.Empty) (JSValue.object 7) = some w1 ∧
      flagsForward (sampleWorld 1 0 TJSPromise.Empty) w1 :=
  (lifecycle_flags_forward sampleEnv (sampleWorld 1 0 TJSPromise.Empty) 0 (JSValue.object 7) []
    (fun u hu => ⟨(sampleMem 1 0 TJSPromise.Empty),
      by
        have h100 : u = 100 := by
          have h2 : JS_GetOpaque (sampleWorld 1 0 TJSPromise.Empty) (JSValue.object 7)
              sampleEnv.ects_http_class_id = some 100 := by decide
          rw [h2] at hu
          exact (Option.some.inj hu).symm
        subst h100
        decide⟩)).1

/-- C4 fails on the code: the handle 100 of object 7 has closed = 1, and bind
and connect with a translatable address still call the native bind and the
native connect, and return undefined when those return 0; the native bind is
called whatever it is going to return. -/
theorem closed_handle_bind_connect_reach_native :
    (deref (sampleWorld 1 0 TJSPromise.Empty) 100).map TJSUdp.closed = some 1 ∧
    tjs_udp_bind sampleEnv (sampleWorld 1 0 TJSPromise.Empty) 0 (JSValue.object 7) [JSValue.other 5]
      = ({ sampleWorld 1 0 TJSPromise.Empty with
            trace := [Effect.tjs_obj2addr (JSValue.other 5) 0,
              Effect.uv_udp_bind 100 { family := 2, bytes := [5] } 0 0] },
          JS_UNDEFINED) ∧
    tjs_udp_connect sampleEnv (sampleWorld 1 0 TJSPromise.Empty) 0 (JSValue.object 7)
        [JSValue.other 5]
      = ({ sampleWorld 1 0 TJSPromise.Empty with
            trace := [Effect.tjs_obj2addr (JSValue.other 5) 0,
              Effect.uv_udp_connect 100 { family := 2, bytes := [5] } 0] },
          JS_UNDEFINED) ∧
    (∀ r : Int, Effect.uv_udp_bind 100 { family := 2, bytes := [5] } 0 r ∈
      (tjs_udp_bind { sampleEnv with uv_udp_bind := fun _ _ _ => r }
        (sampleWorld 1 0 TJSPromise.Empty) 0 (JSValue.object 7) [JSValue.other 5]).1.trace) := by
  refine ⟨by decide, rfl, rfl, ?_⟩
  intro r
  by_cases hr : r = 0
  · simp [tjs_udp_bind, tjs_udp_get, JS_GetOpaque2, JS_GetOpaque, sampleWorld, sampleEnv, arg,
      JS_IsUndefined, emit, hr]
  · simp [tjs_udp_bind, tjs_udp_get, JS_GetOpaque2, JS_GetOpaque, sampleWorld, sampleEnv, arg,
      JS_IsUndefined, emit, hr, tjs_throw_errno]

/-- C4, amended: bind and connect do not look at the lifecycle flags.  For
every handle attached to its object, whatever its closed and finalized flags,
once the address argument translates (and, for bind, the flags argument is
undefined or converts) the native bind or connect is called exactly once, the
call returns undefined when the native call returns 0 and fails with the
native code (tjs_throw_errno) otherwise. -/
theorem bind_connect_ignore_lifecycle (env : Env) (w : World) (ctx : Ctx) (this_val : JSValue)
    (argv : List JSValue) (u : Ptr) (b : Block) (flags : Int)
    (hu : tjs_udp_get env w ctx this_val = some u)
    (_hb : w.heap u = some b)
    (ha : (env.tjs_obj2addr (arg argv 0)).1 = 0)
    (hf : (arg argv 1 = JSValue.undefined ∧ flags = 0) ∨
      (arg argv 1 ≠ JSValue.undefined ∧ env.JS_ToInt32 (arg argv 1) = some flags)) :
    tjs_udp_bind env w ctx this_val argv =
      ({ w with trace := w.trace ++ [Effect.tjs_obj2addr (arg argv 0) 0] ++
          (if arg argv 1 = JSValue.undefined then []
            else [Effect.JS_ToInt32 (arg argv 1) (some flags)]) ++
          [Effect.uv_udp_bind u (env.tjs_obj2addr (arg argv 0)).2 flags
            (env.uv_udp_bind u (env.tjs_obj2addr (arg argv 0)).2 flags)] ++
          (if env.uv_udp_bind u (env.tjs_obj2addr (arg argv 0)).2 flags ≠ 0
            then [Effect.tjs_throw_errno (env.uv_udp_bind u (env.tjs_obj2addr (arg argv 0)).2 flags)]
            else []) },
       if env.uv_udp_bind u (env.tjs_obj2addr (arg argv 0)).2 flags ≠ 0 then JS_EXCEPTION
       else JS_UNDEFINED) ∧
    tjs_udp_connect env w ctx this_val argv =
      ({ w with trace := w.trace ++ [Effect.tjs_obj2addr (arg argv 0) 0] ++
          [Effect.uv_udp_connect u (env.tjs_obj2addr (arg argv 0)).2
            (env.uv_udp_connect u (env.tjs_obj2addr (arg argv 0)).2)] ++
          (if env.uv_udp_connect u (env.tjs_obj2addr (arg argv 0)).2 ≠ 0
            then [Effect.tjs_throw_errno (env.uv_udp_connect u (env.tjs_obj2addr (arg argv 0)).2)]
            else []) },
       if env.uv_udp_connect u (env.tjs_obj2addr (arg argv 0)).2 ≠ 0 then JS_EXCEPTION
       else JS_UNDEFINED) :=
  ⟨tjs_udp_bind_native env w ctx this_val argv u flags hu ha hf,
   tjs_udp_connect_native env w ctx this_val argv u hu ha⟩

/-- Witness for the amended C4: the closed handle of object 7 with a failing
native bind and connect. -/
theorem bind_connect_ignore_lifecycle_witness :
    (tjs_udp_bind envNativeFails (sampleWorld 1 0 TJSPromise.Empty) 0 (JSValue.object 7)
      [JSValue.other 5]).1.trace
      = [Effect.tjs_obj2addr (JSValue.other 5) 0,
          Effect.uv_udp_bind 100 { family := 2, bytes := [5] } 0 (-98),
          Effect.tjs_throw_errno (-98)] ∧
    (tjs_udp_connect envNativeFails (sampleWorld 1 0 TJSPromise.Empty) 0 (JSValue.object 7)
      [JSValue.other 5]).2 = JS_EXCEPTION :=
  match bind_connect_ignore_lifecycle envNativeFails (sampleWorld 1 0 TJSPromise.Empty) 0
      (JSValue.object 7) [JSValue.other 5] 100
      { mem := sampleMem 1 0 TJSPromise.Empty, live := true }
      0 (by decide) (by decide) (by decide) (Or.inl ⟨by decide, rfl⟩) with
  | ⟨h1, h2⟩ => ⟨congrArg (fun x => x.1.trace) h1, congrArg Prod.snd h2⟩

end EcTs
